import Mathlib

set_option maxHeartbeats 1000000

/-!
Shallow embedding of the Taipei bus-arrival client
(`consForBeingProductive/main.py`, class `TaipeiBusAPI`).

Strings are modelled by Lean `String` (a wrapper around `List Char`);
the Python string primitives the code uses (`str.strip`, `str.split(',')`,
`str.replace`, `int(...)`, `str(...)`) are embedded as executable
functions below, faithful to CPython semantics on the ASCII fragment the
program actually manipulates. Python dicts are embedded as association
lists in insertion order where a later binding for a key shadows an
earlier one (`dictGet` returns the last binding), matching dict
overwrite-on-insert semantics as observed through `get`.
-/

/-- Python `str.isspace` characters (ASCII fragment): the whitespace
`str.strip()` removes from both ends. -/
def pyIsSpace (c : Char) : Bool :=
  c = ' ' || c = '\t' || c = '\n' || c = '\x0d' || c = '\x0b' || c = '\x0c'

/-- Python `str.strip()` on the underlying character list. -/
def pyStripList (l : List Char) : List Char :=
  ((l.dropWhile pyIsSpace).reverse.dropWhile pyIsSpace).reverse

/-- Python `str.strip()`. -/
def pyStrip (s : String) : String :=
  ⟨pyStripList s.data⟩

/-- Digit runs accepted by Python `int(...)` after the optional sign:
a nonempty sequence of ASCII digits in which a single underscore may
appear between two digits (PEP 515), but not lead, trail, or repeat. -/
def digitsCore : List Char → Bool
  | [] => false
  | [c] => c.isDigit
  | c :: c2 :: rest =>
    c.isDigit && (if c2 = '_' then digitsCore rest else digitsCore (c2 :: rest))

/-- Numeric value of a digit run, ignoring underscores. -/
def digitsVal (l : List Char) : Nat :=
  l.foldl (fun acc c => if c = '_' then acc else acc * 10 + (c.toNat - 48)) 0

/-- Python `int(s)` for a string argument: strip surrounding whitespace,
allow one optional sign, then a digit run; `none` when CPython would
raise `ValueError`. (Models the ASCII numerals the feed emits.) -/
def pyInt (s : String) : Option Int :=
  match pyStripList s.data with
  | '+' :: rest => if digitsCore rest then some ((digitsVal rest : Nat) : Int) else none
  | '-' :: rest => if digitsCore rest then some (-((digitsVal rest : Nat) : Int)) else none
  | cs => if digitsCore cs then some ((digitsVal cs : Nat) : Int) else none

/-- Python `s.split(',')` on character lists: `acc` holds the current
field reversed. -/
def splitCommaAux : List Char → List Char → List (List Char)
  | [], acc => [acc.reverse]
  | c :: rest, acc =>
    if c = ',' then acc.reverse :: splitCommaAux rest [] else splitCommaAux rest (c :: acc)

/-- Python `s.split(',')`. -/
def pySplitComma (s : String) : List String :=
  (splitCommaAux s.data []).map (fun l => ⟨l⟩)

/-- Python `s.replace(pat, repl)`: replace every non-overlapping
occurrence of `pat`, scanning left to right. Structured with fuel (one
unit per consumed character) so that it is structurally recursive; the
initial fuel `s.length` always suffices. -/
def pyReplaceAux (p r : List Char) : Nat → List Char → List Char
  | 0, s => s
  | _ + 1, [] => []
  | fuel + 1, c :: rest =>
    if !p.isEmpty && p.isPrefixOf (c :: rest) then
      r ++ pyReplaceAux p r fuel (List.drop (p.length - 1) rest)
    else
      c :: pyReplaceAux p r fuel rest

/-- Python `s.replace(pat, repl)` (for the nonempty patterns the program
uses). -/
def pyReplace (s pat repl : String) : String :=
  ⟨pyReplaceAux pat.data repl.data s.data.length s.data⟩

/-- Python `d.get(k)` over an insertion-ordered association list; the
last binding for a key wins, matching dict overwrite-on-insert. -/
def dictGet {α : Type} (m : List (String × α)) (k : String) : Option α :=
  (m.reverse.find? (fun p => p.1 == k)).map (fun p => p.2)

/-- One row of the static route table: the value stored in `route_map`
by `TaipeiBusAPI._fetch_route_info` (keys `"路線"`, `"站牌"`, `"去返程"`). -/
structure RouteInfo where
  route : String
  stopLabel : String
  direction : String
deriving DecidableEq

/-- Output record of the client: dataclass `BusArrival` in `main.py`. -/
structure BusArrival where
  route : String
  direction : String
  estimated_time : String
  raw_time_value : String
  stop_dynamic_id : String
deriving DecidableEq

/-- `TaipeiBusAPI.STATUS_CODES`, as the lookup `dict.__contains__` /
`dict.get` view the mapping. -/
def STATUS_CODES (s : String) : Option String :=
  if s = "0" then some "進站中"
  else if s = "" then some "未發車"
  else if s = "-1" then some "未發車"
  else if s = "-2" then some "交管不停"
  else if s = "-3" then some "末班已過"
  else if s = "-4" then some "今日未營運"
  else none

/-- `TaipeiBusAPI._format_arrival_time`: status-code strings are matched
first, unparsed; otherwise the value is parsed with `int(...)`, a
`ValueError` yielding the malformed-data label; `math.floor(seconds/60)`
is floor division, `Int.fdiv`. -/
def format_arrival_time (time_value : String) : String :=
  match STATUS_CODES time_value with
  | some label => label
  | none =>
    match pyInt time_value with
    | none => "資料格式錯誤"
    | some seconds =>
      if seconds = 0 then "進站中"
      else if 0 < seconds ∧ seconds < 180 then "將到站"
      else if 180 ≤ seconds then toString (Int.fdiv seconds 60) ++ "分"
      else (STATUS_CODES (toString seconds)).getD "數據異常"

/-- A `td` element of the static markup, as `_fetch_route_info` observes
it through BeautifulSoup: the (tag name, raw text) of its child elements
in document order (queried by `td.find(tag)`), its own text, and its
optional `id` attribute. -/
structure Td where
  children : List (String × String)
  text : String
  id : Option String
deriving DecidableEq

/-- A `tr` element matched by `soup.find_all('tr', class_=['ttego1',
'ttego2'])`: its `td` children in order. -/
structure TableRow where
  cols : List Td
deriving DecidableEq

/-- BeautifulSoup `td.find(tag)`: first child with that tag name, if any. -/
def tdFind (td : Td) (tag : String) : Option String :=
  (td.children.find? (fun p => p.1 == tag)).map (fun p => p.2)

/-- `TaipeiBusAPI._extract_text`: text of the first `tag` child, stripped,
or the default when there is no such child. -/
def extract_text (td : Td) (tag : String) (dflt : String) : String :=
  match tdFind td tag with
  | some t => pyStrip t
  | none => dflt

/-- Placeholder `td` used only to make positional indexing total; every
access below is guarded by the column count, so it is never read. -/
def emptyTd : Td :=
  ⟨[], "", none⟩

/-- The body of the row loop in `TaipeiBusAPI._fetch_route_info`: skip
rows without exactly 4 columns; skip rows whose time cell has no `id`
attribute (or an empty one — Python truthiness); otherwise insert under
the key `id.replace('tte', '')`. -/
def route_row_step (route_map : List (String × RouteInfo)) (row : TableRow) :
    List (String × RouteInfo) :=
  let cols := row.cols
  if cols.length ≠ 4 then route_map
  else
    let route_name := extract_text (cols.getD 0 emptyTd) "a" "N/A"
    let stop_name := extract_text (cols.getD 1 emptyTd) "a" "N/A"
    let direction := pyStrip (cols.getD 2 emptyTd).text
    match (cols.getD 3 emptyTd).id with
    | some i =>
      if i = "" then route_map
      else route_map ++ [(pyReplace i "tte" "", ⟨route_name, stop_name, direction⟩)]
    | none => route_map

/-- `TaipeiBusAPI._fetch_route_info`, from the matched rows onward (the
HTTP GET and HTML parse deliver `bus_rows`). -/
def fetch_route_info (bus_rows : List TableRow) : List (String × RouteInfo) :=
  bus_rows.foldl route_row_step []

/-- One element of the dynamic feed's `"Stop"` array, as the code reads
it: the numeric `id` field and the optional comma-delimited `n1` field. -/
structure StopEntry where
  id : Int
  n1 : Option String
deriving DecidableEq

/-- The dynamic feed payload, as the code reads it: the optional
top-level `"UpdateTime"` field and the `"Stop"` array (a missing array
is the empty list, matching `json_data.get("Stop", [])`). -/
structure DynPayload where
  updateTime : Option String
  stop : List StopEntry
deriving DecidableEq

/-- The spec's ArrivalSignal: the data of one well-formed feed entry —
its `id` converted to a string, `n1` position 1, and `n1` position 7. -/
structure ArrivalSignal where
  entryId : String
  dynamicKey : String
  rawTimeValue : String
deriving DecidableEq

/-- The body of the entry loop in `TaipeiBusAPI._process_arrivals`:
`none` when the entry is skipped (`n1` missing, or fewer than 8
comma-separated parts), otherwise the `BusArrival` appended for it,
looked up in `route_map` by `str(stop_entry['id'])` with the
unknown-route fallback. -/
def process_entry (route_map : List (String × RouteInfo)) (stop_entry : StopEntry) :
    Option BusArrival :=
  match stop_entry.n1 with
  | none => none
  | some n1 =>
    let n1_parts := pySplitComma n1
    if n1_parts.length < 8 then none
    else
      let stop_dynamic_id := n1_parts.getD 1 ""
      let raw_time := n1_parts.getD 7 ""
      let estimated_time := format_arrival_time raw_time
      match dictGet route_map (toString stop_entry.id) with
      | some info =>
        some ⟨info.route, info.direction, estimated_time, raw_time, stop_dynamic_id⟩
      | none =>
        some ⟨"未知路線 (ID:" ++ stop_dynamic_id ++ ")", "N/A",
          estimated_time, raw_time, stop_dynamic_id⟩

/-- One iteration of the entry loop of `_process_arrivals` acting on the
accumulated `arrivals` list: append the entry's `BusArrival`, or leave
the list unchanged when the entry is skipped. -/
def append_arrival (route_map : List (String × RouteInfo)) (acc : List BusArrival)
    (stop_entry : StopEntry) : List BusArrival :=
  match process_entry route_map stop_entry with
  | some a => acc ++ [a]
  | none => acc

/-- The `arrivals` list of `_process_arrivals` before the final sort, in
feed order: each kept entry appends one `BusArrival`. -/
def raw_arrivals (json_data : DynPayload) (route_map : List (String × RouteInfo)) :
    List BusArrival :=
  json_data.stop.foldl (append_arrival route_map) []

/-- The comparison `arrivals.sort(key=lambda x: x.route)` sorts by:
route names under Lean's lexicographic `String` order (code-point
comparison, as in Python). -/
def routeLE (a b : BusArrival) : Bool :=
  decide (a.route ≤ b.route)

/-- `TaipeiBusAPI._process_arrivals`: decode `&#x3a;` in the update
time, build one `BusArrival` per kept entry, and sort stably by route
name (Python `list.sort` is stable; `List.mergeSort` is the stable sort
realizing it). -/
def process_arrivals (json_data : DynPayload) (route_map : List (String × RouteInfo)) :
    List BusArrival × String :=
  ((raw_arrivals json_data route_map).mergeSort routeLE,
   pyReplace ((json_data.updateTime).getD "N/A") "&#x3a;" ":")

/-- `TaipeiBusAPI.get_stop_estimates`, parameterized by the two fetches
(each a pure oracle from the stop id to the fetched data): `if not
stop_id` short-circuits to `([], "")` when the name is unmapped or maps
to a falsy (empty) id, before either fetch happens. -/
def get_stop_estimates (stop_mapping : List (String × String))
    (fetch_route : String → List TableRow)
    (fetch_dynamic : String → DynPayload)
    (stop_name : String) : List BusArrival × String :=
  match dictGet stop_mapping stop_name with
  | none => ([], "")
  | some stop_id =>
    if stop_id = "" then ([], "")
    else process_arrivals (fetch_dynamic stop_id) (fetch_route_info (fetch_route stop_id))

/-- The ArrivalSignal extracted from a feed entry, when the entry is
well formed (the same guards as `process_entry`). -/
def extract_signal (stop_entry : StopEntry) : Option ArrivalSignal :=
  match stop_entry.n1 with
  | none => none
  | some n1 =>
    let n1_parts := pySplitComma n1
    if n1_parts.length < 8 then none
    else some ⟨toString stop_entry.id, n1_parts.getD 1 "", n1_parts.getD 7 ""⟩

/-- The sequence of arrival signals carried by a feed payload. -/
def signals (json_data : DynPayload) : List ArrivalSignal :=
  json_data.stop.filterMap extract_signal

/-- The `BusArrival` built from an ArrivalSignal; `process_entry` is the
composition of `extract_signal` with this map. -/
def signal_to_arrival (route_map : List (String × RouteInfo)) (sig : ArrivalSignal) :
    BusArrival :=
  match dictGet route_map sig.entryId with
  | some info =>
    ⟨info.route, info.direction, format_arrival_time sig.rawTimeValue,
      sig.rawTimeValue, sig.dynamicKey⟩
  | none =>
    ⟨"未知路線 (ID:" ++ sig.dynamicKey ++ ")", "N/A",
      format_arrival_time sig.rawTimeValue, sig.rawTimeValue, sig.dynamicKey⟩

/-- Modelled from the spec's words (for comparison with the source's
`id.replace('tte', '')`): the dynamicKey "obtained by stripping the
fixed literal tag from the front of the time cell's element identifier". -/
def specStripTag (i : String) : String :=
  if ("tte".data).isPrefixOf i.data then ⟨i.data.drop 3⟩ else i

/-- Concrete static-fetch oracle returning no rows (used to instantiate
`get_stop_estimates` at closed inputs). -/
def noRows : String → List TableRow :=
  fun _ => []

/-- Concrete dynamic-fetch oracle returning an empty feed. -/
def emptyFeed : String → DynPayload :=
  fun _ => ⟨none, []⟩

/-- A 4-column static row whose time-cell id is `"ttette482"`: the tag
`tte` occurs twice, once as the leading tag and once inside the key. -/
def doubleTagRow : TableRow :=
  ⟨[⟨[("a", "R1")], "", none⟩, ⟨[("a", "S1")], "", none⟩, ⟨[], "去程", none⟩,
    ⟨[], "", some "ttette482"⟩]⟩

theorem foldl_append_arrival (m : List (String × RouteInfo)) (l : List StopEntry) :
    ∀ acc : List BusArrival,
      l.foldl (append_arrival m) acc = acc ++ l.filterMap (process_entry m) := by
  induction l with
  | nil => intro acc; simp
  | cons e l ih =>
    intro acc
    cases h : process_entry m e with
    | none => simp [append_arrival, h, ih, List.filterMap_cons]
    | some a => simp [append_arrival, h, ih, List.filterMap_cons]

theorem raw_arrivals_eq_filterMap (p : DynPayload) (m : List (String × RouteInfo)) :
    raw_arrivals p m = p.stop.filterMap (process_entry m) := by
  unfold raw_arrivals
  simpa using foldl_append_arrival m p.stop []

theorem process_entry_eq_map (m : List (String × RouteInfo)) (e : StopEntry) :
    process_entry m e = (extract_signal e).map (signal_to_arrival m) := by
  cases hn : e.n1 with
  | none => simp [process_entry, extract_signal, hn]
  | some n1 =>
    by_cases h : (pySplitComma n1).length < 8
    · simp [process_entry, extract_signal, hn, h]
    · cases hd : dictGet m (toString e.id) <;>
        simp [process_entry, extract_signal, signal_to_arrival, hn, h, hd]

theorem routeLE_trans (a b c : BusArrival) : routeLE a b → routeLE b c → routeLE a c := by
  simp only [routeLE, decide_eq_true_eq]
  exact le_trans

theorem routeLE_total (a b : BusArrival) : routeLE a b || routeLE b a := by
  simp only [routeLE, Bool.or_eq_true, decide_eq_true_eq]
  exact le_total _ _

theorem mergeSort_routeLE_sorted (l : List BusArrival) :
    (l.mergeSort routeLE).Pairwise (fun a b => a.route ≤ b.route) :=
  (List.sorted_mergeSort routeLE_trans routeLE_total l).imp
    (fun hab => of_decide_eq_true hab)

theorem mergeSort_filter_stable {α : Type} (le : α → α → Bool)
    (trans : ∀ a b c : α, le a b → le b c → le a c)
    (total : ∀ a b : α, le a b || le b a)
    (p : α → Bool) (hp : ∀ a b, p a → p b → le a b) (l : List α) :
    (l.mergeSort le).filter p = l.filter p := by
  have hsub : List.Sublist (l.filter p) l := List.filter_sublist l
  have hpw : (l.filter p).Pairwise (fun a b => le a b = true) := by
    apply List.pairwise_of_forall_mem_list
    intro a ha b hb
    exact hp a b (List.mem_filter.mp ha).2 (List.mem_filter.mp hb).2
  have h2 : List.Sublist (l.filter p) (l.mergeSort le) :=
    List.sublist_mergeSort trans total hpw hsub
  have h3 : (l.filter p).filter p = l.filter p := by
    apply List.filter_eq_self.mpr
    intro a ha
    exact (List.mem_filter.mp ha).2
  have h4 : List.Sublist (l.filter p) ((l.mergeSort le).filter p) := by
    have h := h2.filter p
    rwa [h3] at h
  have h5 : ((l.mergeSort le).filter p).length = (l.filter p).length :=
    ((List.mergeSort_perm l le).filter p).length_eq
  exact (h4.eq_of_length h5.symm).symm

/-- C1: every arrival signal's static route record is looked up by the
feed entry's `id` converted to a string (not by its `dynamicKey`);
whenever this lookup misses, the emitted `BusArrival` has route
`"未知路線 (ID:" ++ dynamicKey ++ ")"` and direction `"N/A"`, and the
signal is still emitted (`process_entry` returns `some`, never `none`,
for a well-formed entry). -/
theorem unmatched_signal_fallback (m : List (String × RouteInfo)) (e : StopEntry)
    (s : String) (hn1 : e.n1 = some s) (hlen : 8 ≤ (pySplitComma s).length)
    (hmiss : dictGet m (toString e.id) = none) :
    process_entry m e =
      some ⟨"未知路線 (ID:" ++ (pySplitComma s).getD 1 "" ++ ")", "N/A",
        format_arrival_time ((pySplitComma s).getD 7 ""),
        (pySplitComma s).getD 7 "", (pySplitComma s).getD 1 ""⟩ := by
  have hnot : ¬ (pySplitComma s).length < 8 := by omega
  simp [process_entry, hn1, hnot, hmiss]

/-- C1 witness: the static map is keyed by the dynamicKey `"482"`, the
entry's id is `999`; the lookup by `"999"` misses (even though a lookup
by the dynamicKey would hit) and the fallback arrival is emitted. -/
theorem unmatched_signal_fallback_witness :
    dictGet [("482", (⟨"X", "S", "去程"⟩ : RouteInfo))] (toString (999 : Int)) = none ∧
    process_entry [("482", ⟨"X", "S", "去程"⟩)] ⟨999, some "0,482,a,b,c,d,e,30"⟩ =
      some ⟨"未知路線 (ID:482)", "N/A", "將到站", "30", "482"⟩ := by
  refine ⟨by decide, ?_⟩
  have h := unmatched_signal_fallback [("482", ⟨"X", "S", "去程"⟩)]
    ⟨999, some "0,482,a,b,c,d,e,30"⟩ "0,482,a,b,c,d,e,30" rfl (by decide) (by decide)
  rw [h]
  decide

/-- C2: reconciliation never drops a signal: for every feed payload and
every static route map, the report holds exactly one `BusArrival` per
arrival signal, so the lengths agree. -/
theorem reconcile_never_drops (p : DynPayload) (m : List (String × RouteInfo)) :
    ((process_arrivals p m).1).length = (signals p).length := by
  have hlen : ∀ l : List StopEntry,
      (l.filterMap (process_entry m)).length = (l.filterMap extract_signal).length := by
    intro l
    induction l with
    | nil => rfl
    | cons e l ih =>
      rw [List.filterMap_cons, List.filterMap_cons, process_entry_eq_map]
      cases extract_signal e with
      | none => simpa using ih
      | some sig => simpa using ih
  show ((raw_arrivals p m).mergeSort routeLE).length = (signals p).length
  rw [List.length_mergeSort, raw_arrivals_eq_filterMap, signals, hlen]

/-- C3: every raw time value in the fixed status-code set — the empty
string, "-1", "-2", "-3", "-4" — gets its fixed label, matched on the
unparsed string before any numeric interpretation (the empty string, in
particular, has no numeric reading yet still gets `"未發車"`). -/
theorem format_status_code_labels :
    format_arrival_time "" = "未發車" ∧
    format_arrival_time "-1" = "未發車" ∧
    format_arrival_time "-2" = "交管不停" ∧
    format_arrival_time "-3" = "末班已過" ∧
    format_arrival_time "-4" = "今日未營運" := by
  decide

/-- C4: a raw value that is no status-code string and parses as a
non-negative integer `n` of seconds formats as `"進站中"` when `n = 0`,
`"將到站"` when `0 < n < 180`, and the floor-divided minute count
`"N分"` when `180 ≤ n`. -/
theorem format_numeric_seconds (t : String) (n : Int)
    (hstatus : STATUS_CODES t = none) (hparse : pyInt t = some n) (_hnn : 0 ≤ n) :
    (n = 0 → format_arrival_time t = "進站中") ∧
    (0 < n → n < 180 → format_arrival_time t = "將到站") ∧
    (180 ≤ n → format_arrival_time t = toString (Int.fdiv n 60) ++ "分") := by
  have hform : format_arrival_time t =
      (if n = 0 then "進站中"
       else if 0 < n ∧ n < 180 then "將到站"
       else if 180 ≤ n then toString (Int.fdiv n 60) ++ "分"
       else (STATUS_CODES (toString n)).getD "數據異常") := by
    simp only [format_arrival_time, hstatus, hparse]
  rw [hform]
  refine ⟨fun h0 => by rw [if_pos h0],
    fun hpos hlt => by rw [if_neg (by omega), if_pos ⟨hpos, hlt⟩],
    fun hge => by rw [if_neg (by omega), if_neg (by omega), if_pos hge]⟩

/-- C4 witness: `"185"` is no status code, parses as 185 ≥ 180, and
formats as `"3分"` (185 fdiv 60 = 3). -/
theorem format_numeric_seconds_witness :
    STATUS_CODES "185" = none ∧ pyInt "185" = some 185 ∧ (0 : Int) ≤ 185 ∧
    format_arrival_time "185" = "3分" := by
  refine ⟨by decide, by decide, by decide, ?_⟩
  have h := (format_numeric_seconds "185" 185 (by decide) (by decide) (by decide)).2.2
    (by decide)
  rw [h]
  decide

/-- C5 counterexample: `"-5"` is outside the status-code set and parses
as the negative integer `-5`, yet the formatter returns `"數據異常"`
(data anomaly, via `STATUS_CODES.get(str(seconds), "數據異常")`), not
the malformed-data label `"資料格式錯誤"` the claim requires. -/
theorem format_negative_seconds_counterexample :
    STATUS_CODES "-5" = none ∧ pyInt "-5" = some (-5) ∧ (-5 : Int) < 0 ∧
    format_arrival_time "-5" = "數據異常" ∧
    format_arrival_time "-5" ≠ "資料格式錯誤" := by
  decide

/-- C5 amended: a raw value outside the status-code set that fails
integer parsing formats as `"資料格式錯誤"`; one that parses as a
negative integer `n` instead formats as the status label of `str(n)`
when that string is a status code, and as `"數據異常"` otherwise. -/
theorem format_unparsed_or_negative (t : String) (hstatus : STATUS_CODES t = none) :
    (pyInt t = none → format_arrival_time t = "資料格式錯誤") ∧
    (∀ n : Int, pyInt t = some n → n < 0 →
      format_arrival_time t = (STATUS_CODES (toString n)).getD "數據異常") := by
  constructor
  · intro hp
    simp only [format_arrival_time, hstatus, hp]
  · intro n hp hneg
    simp only [format_arrival_time, hstatus, hp]
    rw [if_neg (by omega), if_neg (by omega), if_neg (by omega)]

/-- C5 amended witness: both branches at concrete inputs — `"abc"`
fails to parse and formats as `"資料格式錯誤"`; `"-5"` parses negative
and formats as `"數據異常"`. -/
theorem format_unparsed_or_negative_witness :
    format_arrival_time "abc" = "資料格式錯誤" ∧
    format_arrival_time "-5" = "數據異常" := by
  constructor
  · exact (format_unparsed_or_negative "abc" (by decide)).1 (by decide)
  · have h := (format_unparsed_or_negative "-5" (by decide)).2 (-5) (by decide) (by decide)
    rw [h]
    decide

/-- C6: the report's arrivals are sorted by route name in ascending
lexicographic string order, and the sort is stable: for every route name
`r`, the arrivals carrying `r` appear in the report in exactly the order
the signals that produced them occur in the feed (`raw_arrivals` is the
pre-sort arrival list, one element per signal in feed order). -/
theorem report_sorted_and_stable (p : DynPayload) (m : List (String × RouteInfo)) :
    ((process_arrivals p m).1).Pairwise (fun a b => a.route ≤ b.route) ∧
    ∀ r : String, ((process_arrivals p m).1).filter (fun a => a.route == r)
      = (raw_arrivals p m).filter (fun a => a.route == r) := by
  constructor
  · exact mergeSort_routeLE_sorted (raw_arrivals p m)
  · intro r
    refine mergeSort_filter_stable routeLE routeLE_trans routeLE_total
      (fun a => a.route == r) (fun a b ha hb => ?_) (raw_arrivals p m)
    have ha' : a.route = r := eq_of_beq ha
    have hb' : b.route = r := eq_of_beq hb
    show decide (a.route ≤ b.route) = true
    rw [ha', hb']
    exact decide_eq_true le_rfl

/-- C7 counterexample: a 4-column row whose time-cell id is
`"ttette482"`. Stripping the fixed tag prefix, as the claim states,
would yield dynamicKey `"tte482"`; the code's `id.replace('tte', '')`
removes every occurrence and yields `"482"`, so the produced map is
keyed `"482"` and has no entry under the claimed key. -/
theorem dynamic_key_strip_counterexample :
    specStripTag "ttette482" = "tte482" ∧
    fetch_route_info [doubleTagRow] = [("482", ⟨"R1", "S1", "去程"⟩)] ∧
    dictGet (fetch_route_info [doubleTagRow]) "tte482" = none ∧
    ("482" : String) ≠ "tte482" := by
  decide

/-- C7 amended: a row whose column count is not exactly 4 contributes no
entry to the output map wherever it occurs; a 4-column row with a
nonempty time-cell id `i` appends exactly one entry, keyed by `i` with
every occurrence of the literal tag `"tte"` removed (which coincides
with stripping the tag prefix whenever `"tte"` occurs only as the
leading tag); in particular an id `"tte482"` yields dynamicKey `"482"`. -/
theorem dynamic_key_replace_all (m : List (String × RouteInfo)) (row : TableRow) :
    (∀ rows1 rows2 : List TableRow, row.cols.length ≠ 4 →
      fetch_route_info (rows1 ++ row :: rows2) = fetch_route_info (rows1 ++ rows2)) ∧
    (∀ i, row.cols.length = 4 → (row.cols.getD 3 emptyTd).id = some i → i ≠ "" →
      route_row_step m row = m ++ [(pyReplace i "tte" "",
        ⟨extract_text (row.cols.getD 0 emptyTd) "a" "N/A",
         extract_text (row.cols.getD 1 emptyTd) "a" "N/A",
         pyStrip (row.cols.getD 2 emptyTd).text⟩)]) ∧
    pyReplace "tte482" "tte" "" = "482" := by
  refine ⟨?_, ?_, by decide⟩
  · intro rows1 rows2 hlen
    have hskip : ∀ m' : List (String × RouteInfo), route_row_step m' row = m' := by
      intro m'
      simp [route_row_step, hlen]
    unfold fetch_route_info
    rw [List.foldl_append, List.foldl_append, List.foldl_cons, hskip]
  · intro i hlen hid hne
    have h4 : ¬ row.cols.length ≠ 4 := by omega
    simp only [route_row_step]
    rw [if_neg h4, hid]
    simp [hne]

/-- C7 amended witness: a 3-column row contributes nothing, and the
4-column row behind it with time-cell id `"tte482"` contributes the
single entry keyed `"482"`. -/
theorem dynamic_key_replace_all_witness :
    fetch_route_info [⟨[emptyTd, emptyTd, emptyTd]⟩,
        ⟨[⟨[("a", "R1")], "", none⟩, ⟨[("a", "S1")], "", none⟩, ⟨[], "去程", none⟩,
          ⟨[], "", some "tte482"⟩]⟩]
      = [("482", ⟨"R1", "S1", "去程"⟩)] := by
  have h1 := (dynamic_key_replace_all [] (⟨[emptyTd, emptyTd, emptyTd]⟩ : TableRow)).1
    [] [⟨[⟨[("a", "R1")], "", none⟩, ⟨[("a", "S1")], "", none⟩, ⟨[], "去程", none⟩,
          ⟨[], "", some "tte482"⟩]⟩] (by decide)
  have h2 := (dynamic_key_replace_all []
    (⟨[⟨[("a", "R1")], "", none⟩, ⟨[("a", "S1")], "", none⟩, ⟨[], "去程", none⟩,
       ⟨[], "", some "tte482"⟩]⟩ : TableRow)).2.1 "tte482"
    (by decide) (by decide) (by decide)
  simp only [List.nil_append] at h1
  rw [h1]
  unfold fetch_route_info
  rw [List.foldl_cons, List.foldl_nil, h2]
  decide

/-- C8: a stop name with no binding in the preloaded stop registry makes
the top-level lookup return an empty arrivals list and an empty
update-time string; the result is the same for every pair of fetch
oracles, so neither network fetch can influence (or be needed for) it. -/
theorem unresolved_stop_empty_report (stop_mapping : List (String × String))
    (fetch_route : String → List TableRow) (fetch_dynamic : String → DynPayload)
    (stop_name : String) (h : dictGet stop_mapping stop_name = none) :
    get_stop_estimates stop_mapping fetch_route fetch_dynamic stop_name = ([], "") := by
  simp [get_stop_estimates, h]

/-- C8 witness: a one-entry registry, a name absent from it, and
concrete fetch oracles. -/
theorem unresolved_stop_empty_report_witness :
    dictGet [("捷運公館站", "10103")] "不在表中的站名" = none ∧
    get_stop_estimates [("捷運公館站", "10103")] noRows emptyFeed "不在表中的站名"
      = ([], "") :=
  ⟨by decide, unresolved_stop_empty_report _ noRows emptyFeed _ (by decide)⟩

/-- C9: the report's update time is the feed's top-level timestamp with
the HTML entity `&#x3a;` decoded to `:` (every occurrence replaced); in
particular a timestamp carrying two such entities decodes to the plain
colon-bearing string. -/
theorem update_time_decodes_colon_entity :
    (∀ (stops : List StopEntry) (m : List (String × RouteInfo)) (ts : String),
      (process_arrivals ⟨some ts, stops⟩ m).2 = pyReplace ts "&#x3a;" ":") ∧
    pyReplace "2024/05/01 10&#x3a;23&#x3a;45" "&#x3a;" ":" = "2024/05/01 10:23:45" :=
  ⟨fun _ _ _ => rfl, by decide⟩

/-- C10: a row with exactly 4 columns whose time cell has no `id`
attribute contributes no entry to the output map: the loop step leaves
the map unchanged, and such a row alone produces the empty map. -/
theorem four_column_row_without_id_skipped (m : List (String × RouteInfo))
    (row : TableRow) (hlen : row.cols.length = 4)
    (hid : (row.cols.getD 3 emptyTd).id = none) :
    route_row_step m row = m ∧ fetch_route_info [row] = [] := by
  have h4 : ¬ row.cols.length ≠ 4 := by omega
  have hstep : ∀ m' : List (String × RouteInfo), route_row_step m' row = m' := by
    intro m'
    simp only [route_row_step]
    rw [if_neg h4, hid]
  refine ⟨hstep m, ?_⟩
  unfold fetch_route_info
  rw [List.foldl_cons, List.foldl_nil, hstep]

/-- C10 witness: a concrete 4-column row, all cells without `id`. -/
theorem four_column_row_without_id_skipped_witness :
    fetch_route_info [⟨[emptyTd, emptyTd, emptyTd, emptyTd]⟩] = [] :=
  (four_column_row_without_id_skipped [] ⟨[emptyTd, emptyTd, emptyTd, emptyTd]⟩
    (by decide) (by decide)).2
